import Mathlib

/-!
Shallow embedding of the token-verification pipeline, the tRPC middleware chain
and the installation-register URL validator of the saleor-apps SMTP app, together
with the webhook manifest differ described by the specification.

Sources embedded:
- `src/apps/smtp/src/lib/apl/apl-interfaces.ts` (AuthData, createCustomRemoteJWKSet,
  verifyJWTWithCustomHeaders, attachAppToken, validateClientToken,
  protectedClientProcedure);
- `src/apps/smtp/src/modules/trpc/protected-client-procedure-with-services.ts`
  (protectedWithConfigurationServices);
- `src/apps/smtp/src/pages/api/register.ts` (allowedSaleorUrls validator).

Network effects (jose.decodeJwt, jose.jwtVerify, fetch, the APL store) are modelled
by their observable outcomes: a token carries the outcome of structural decoding and
of signature verification, a fetch carries the response it would have produced, and
the APL store is a function from app id to optional auth data.
-/

namespace SmtpApp

/-- The claim set decoded from a JWT: the embedded application identifier
(the `app` claim compared against the expected app id) and the permission list. -/
structure TokenClaims where
  app : String
  permissions : List String
deriving DecidableEq, Repr

/-- Observable model of a bearer token: the outcome of `jose.decodeJwt` (structural
decode without signature verification; `none` models a decode throw) and the outcome
of `jose.jwtVerify` against the tenant key set (`false` models a verification throw). -/
structure Token where
  decodeJwt : Option TokenClaims
  signatureValid : Bool
deriving DecidableEq, Repr

/-- The distinct failure reasons of the verifier. The source throws `Error`s with
distinct messages for malformed tokens, signature failures and app mismatch;
`insufficientPermission` is the reason the specification names for a failed
permission check. -/
inductive VerifyError where
  | malformed
  | badSignature
  | appMismatch
  | insufficientPermission
deriving DecidableEq, Repr

/-- Embedding of `verifyJWTWithCustomHeaders` from `apl-interfaces.ts` (lines 81-123).
In source order: decode the claims (`jose.decodeJwt`; throw → malformed), verify the
signature (`jose.jwtVerify`; throw → bad signature), compare `tokenClaims.app` with
the expected `appId` (mismatch → app mismatch), then return the claims. The
`requiredPermissions` parameter exists in the source signature with default `[]` but
is never read by the function body. -/
def verifyJWTWithCustomHeaders (token : Token) (appId : String)
    (requiredPermissions : List String := []) : Except VerifyError TokenClaims :=
  match token.decodeJwt with
  | none => .error .malformed
  | some tokenClaims =>
    if token.signatureValid then
      if tokenClaims.app ≠ appId then .error .appMismatch
      else .ok tokenClaims
    else .error .badSignature

/-- Recognizer for the `insufficientPermission` failure reason of the verifier. -/
def isInsufficientPermissionFailure : Except VerifyError TokenClaims → Bool
  | .error .insufficientPermission => true
  | _ => false

/-- Observable model of an HTTP response to the JWKS fetch: the `ok` flag and the
`statusText` of the response. -/
structure FetchResponse where
  ok : Bool
  statusText : String
deriving DecidableEq, Repr

/-- Embedding of the `fetchWithHeaders` closure inside `createCustomRemoteJWKSet`
(`apl-interfaces.ts` lines 56-71): given the URL being fetched and the response the
underlying `fetch` produced, return the response when `response.ok`, otherwise throw
an error whose message is the string `"Failed to fetch JWKS: "` followed by the
response's status text. -/
def fetchWithHeaders (input : String) (response : FetchResponse) :
    Except String FetchResponse :=
  if response.ok then .ok response
  else .error ("Failed to fetch JWKS: " ++ response.statusText)

/-- Embedding of the `AuthData` interface from `apl-interfaces.ts` (lines 2-9):
one record per tenant held by the APL store. -/
structure AuthData where
  domain : Option String
  token : String
  saleorApiUrl : String
  appId : String
  dashboardUrl : String
  jwks : Option String
deriving DecidableEq, Repr

/-- Embedding of the GraphQL client built by `createInstrumentedGraphqlClient`:
construction is pure (it only records the connection parameters); any network
failure surfaces later, on first use. -/
structure GraphqlClient where
  saleorApiUrl : String
  token : String
  dashboardUrl : String
deriving DecidableEq, Repr

/-- The tRPC request context accumulated by the middleware chain. `token`, `appId`,
`saleorApiUrl` and `ssr` come with the request; `appToken` is attached by
`attachAppToken`; `apiClient` is attached by the last stage of
`protectedClientProcedure`. Absent JS fields are `none`. -/
structure Ctx where
  token : Option Token
  appId : Option String
  saleorApiUrl : Option String
  ssr : Bool
  appToken : Option String
  dashboardUrl : Option String
  apiClient : Option GraphqlClient
deriving DecidableEq, Repr

/-- Handler metadata consulted by the middleware chain: the per-operation client
permissions and the `updateWebhooks` flag that gates webhook reconciliation. -/
structure Meta where
  requiredClientPermissions : Option (List String)
  updateWebhooks : Bool
deriving DecidableEq, Repr

/-- The typed failures a middleware stage can terminate the request with:
`TRPCError` with a code and message, `ProtectedHandlerError` with a message and an
error code, or an uncaught JS `TypeError` (property access on `undefined`). -/
inductive StageError where
  | trpcError (code : String) (message : String)
  | protectedHandlerError (message : String) (errorCode : String)
  | typeError (message : String)
deriving DecidableEq, Repr

/-- The APL store (`saleorApp.apl`) as consulted by the middleware: `get` keyed by
app id, returning the tenant's auth data or nothing. -/
def AplStore : Type := String → Option AuthData

/-- Embedding of the `attachAppToken` middleware (`apl-interfaces.ts` lines 125-157):
missing `saleorApiUrl` → `TRPCError BAD_REQUEST`; `apl.get(ctx.appId || "")` missing
→ `TRPCError UNAUTHORIZED`; otherwise extend the context with the stored app token
and the stored `saleorApiUrl` and `appId` (tRPC merges the new fields over the
existing context). -/
def attachAppToken (store : AplStore) (ctx : Ctx) : Except StageError Ctx :=
  match ctx.saleorApiUrl with
  | none => .error (.trpcError "BAD_REQUEST" "Missing saleorApiUrl in request")
  | some _ =>
    match store (ctx.appId.getD "") with
    | none => .error (.trpcError "UNAUTHORIZED" "Missing auth data")
    | some authData =>
      .ok { ctx with
        appToken := some authData.token
        saleorApiUrl := some authData.saleorApiUrl
        appId := some authData.appId }

/-- The permission list `validateClientToken` passes to the verifier:
`[...REQUIRED_SALEOR_PERMISSIONS, ...(meta?.requiredClientPermissions || [])]`.
The fixed baseline set is an imported constant and is kept as a parameter. -/
def clientPermissions (baselinePermissions : List String) (meta : Option Meta) :
    List String :=
  baselinePermissions ++ (match meta with
    | some m => m.requiredClientPermissions.getD []
    | none => [])

/-- Embedding of the `validateClientToken` middleware (`apl-interfaces.ts` lines
159-216). In source order: missing `token`, `appId` or `saleorApiUrl` each throw a
distinct `TRPCError INTERNAL_SERVER_ERROR`; then, unless `ctx.ssr` is set, the stage
looks up the tenant's `dashboardUrl` (`(await saleorApp.apl.get(ctx.appId || ""))
.dashboardUrl`, whose `TypeError` on a missing record is caught by the same
`try/catch`) and runs `verifyJWTWithCustomHeaders`; any throw inside the `try` is
replaced by the fixed `ProtectedHandlerError`. On success the context passes through
unchanged. -/
def validateClientToken (store : AplStore) (baselinePermissions : List String)
    (meta : Option Meta) (ctx : Ctx) : Except StageError Ctx :=
  match ctx.token with
  | none => .error (.trpcError "INTERNAL_SERVER_ERROR"
      "Missing token in request. This middleware can be used only in frontend")
  | some token =>
    match ctx.appId with
    | none => .error (.trpcError "INTERNAL_SERVER_ERROR"
        "Missing appId in request. This middleware can be used after auth is attached")
    | some appId =>
      match ctx.saleorApiUrl with
      | none => .error (.trpcError "INTERNAL_SERVER_ERROR"
          "Missing saleorApiUrl in request. This middleware can be used after auth is attached")
      | some _ =>
        if ctx.ssr then .ok ctx
        else
          match store appId with
          | none => .error (.protectedHandlerError "JWT verification failed: "
              "JWT_VERIFICATION_FAILED")
          | some _authData =>
            match verifyJWTWithCustomHeaders token appId
                (clientPermissions baselinePermissions meta) with
            | .error _ => .error (.protectedHandlerError "JWT verification failed: "
                "JWT_VERIFICATION_FAILED")
            | .ok _ => .ok ctx

/-- Embedding of the third, anonymous stage of `protectedClientProcedure`
(`apl-interfaces.ts` lines 229-245): build the GraphQL client from the context's
`saleorApiUrl`, the stored `appToken` and the `dashboardUrl` of
`await saleorApp.apl.get(ctx.appId || "")`; a missing record makes the
`.dashboardUrl` access an uncaught `TypeError`. Client construction itself is pure
and cannot fail. -/
def attachApiClient (store : AplStore) (ctx : Ctx) : Except StageError Ctx :=
  match store (ctx.appId.getD "") with
  | none => .error (.typeError
      "Cannot read properties of undefined (reading dashboardUrl)")
  | some authData =>
    .ok { ctx with
      apiClient := some
        { saleorApiUrl := ctx.saleorApiUrl.getD ""
          token := ctx.appToken.getD ""
          dashboardUrl := authData.dashboardUrl } }

/-- Embedding of `protectedClientProcedure` (`apl-interfaces.ts` lines 226-245):
the three stages composed left to right, each stage running only when the previous
one extended the context instead of terminating the request. -/
def protectedClientProcedure (store : AplStore) (baselinePermissions : List String)
    (meta : Option Meta) (ctx : Ctx) : Except StageError Ctx :=
  (attachAppToken store ctx).bind (fun c1 =>
    (validateClientToken store baselinePermissions meta c1).bind (fun c2 =>
      attachApiClient store c2))

/-- Truthiness of `meta?.updateWebhooks` in the reconciliation middleware. -/
def updateWebhooksFlag (meta : Option Meta) : Bool :=
  (meta.map Meta.updateWebhooks).getD false

/-- Embedding of the `protectedWithConfigurationServices` middleware
(`protected-client-procedure-with-services.ts` lines 19-63). `businessResult` is the
value of `await next(...)` (tRPC's `next` resolves to a result object and does not
throw). When `meta?.updateWebhooks` is truthy, `syncWebhookStatus` is awaited with
no surrounding `try/catch`, so a rejection (`syncOutcome = .error e`) propagates and
replaces the middleware's outcome; otherwise `result` is returned. The second
component counts how many times `syncWebhookStatus` was invoked. -/
def protectedWithConfigurationServices {α : Type} (meta : Option Meta)
    (businessResult : α) (syncOutcome : Except String Unit) :
    Except String α × Nat :=
  if updateWebhooksFlag meta then
    match syncOutcome with
    | .error e => (.error e, 1)
    | .ok _ => (.ok businessResult, 1)
  else (.ok businessResult, 0)

/-- Embedding of the `allowedSaleorUrls` validator passed to
`createAppRegisterHandler` in `pages/api/register.ts` (lines 22-32).
`allowedUrlsPattern` is `process.env.ALLOWED_DOMAIN_PATTERN` (`none` when unset);
JS truthiness makes the empty string fall through to `return true` as well.
`regexTest` models `new RegExp(p).test(url)`. -/
def allowedSaleorUrls (allowedUrlsPattern : Option String)
    (regexTest : String → String → Bool) (url : String) : Bool :=
  match allowedUrlsPattern with
  | none => true
  | some p => if p.isEmpty then true else regexTest p url

/-- Desired webhook state, keyed by `(name, targetUrl)` (spec data model). -/
structure WebhookManifestEntry where
  name : String
  targetUrl : String
  eventTypes : List String
  isActive : Bool
  syncOrAsync : Bool
deriving DecidableEq, Repr

/-- Actual remote webhook state: a manifest entry plus the remote identity. -/
structure RemoteWebhook extends WebhookManifestEntry where
  remoteId : String
deriving DecidableEq, Repr

/-- Matching key of the differ: `(name, targetUrl)`. -/
def sameKey (d e : WebhookManifestEntry) : Bool :=
  d.name == e.name && d.targetUrl == e.targetUrl

/-- Field comparison of the differ: two entries with the same key still differ when
`eventTypes`, `isActive` or `syncOrAsync` differ. -/
def fieldsDiffer (d e : WebhookManifestEntry) : Bool :=
  d.eventTypes != e.eventTypes || d.isActive != e.isActive ||
    d.syncOrAsync != e.syncOrAsync

/-- The three operation sets computed by the differ. -/
structure WebhookDiff where
  toCreate : List WebhookManifestEntry
  toUpdate : List WebhookManifestEntry
  toDelete : List RemoteWebhook
deriving DecidableEq, Repr

/-- Modelled from the spec: the Webhook Manifest Differ of spec section 4.4 is not
among the source files (only its caller `protectedWithConfigurationServices` and
the use of `syncWebhookStatus` are), so it is modelled faithfully from the spec's
words: matching key is `(name, targetUrl)`; an entry present only in `desired` goes
to `toCreate`; present in both with different `eventTypes`, `isActive` or
`syncOrAsync` goes to `toUpdate` (full replace); present only in `actual` goes to
`toDelete` unless its name is outside the owned-name set `ownedNames`. -/
def webhookDiff (ownedNames : List String) (desired : List WebhookManifestEntry)
    (actual : List RemoteWebhook) : WebhookDiff :=
  { toCreate := desired.filter (fun d =>
      !(actual.any (fun w => sameKey d w.toWebhookManifestEntry)))
    toUpdate := desired.filter (fun d =>
      actual.any (fun w =>
        sameKey d w.toWebhookManifestEntry && fieldsDiffer d w.toWebhookManifestEntry))
    toDelete := actual.filter (fun w =>
      !(desired.any (fun d => sameKey d w.toWebhookManifestEntry)) &&
        ownedNames.contains w.name) }

/-- A concrete tenant record used to instantiate the middleware theorems. -/
def demoAuthData : AuthData :=
  { domain := none
    token := "stored-app-token"
    saleorApiUrl := "https://demo.saleor.io/graphql/"
    appId := "app1"
    dashboardUrl := "dashboard.example.com"
    jwks := none }

/-- A concrete APL store holding exactly the record `demoAuthData`, keyed by its
app id. -/
def demoStore : AplStore :=
  fun appId => if appId = "app1" then some demoAuthData else none

/-- A concrete browser-originated request context whose token decodes to matching
claims and carries a valid signature. -/
def demoCtx : Ctx :=
  { token := some ⟨some ⟨"app1", []⟩, true⟩
    appId := some "app1"
    saleorApiUrl := some "https://demo.saleor.io/graphql/"
    ssr := false
    appToken := none
    dashboardUrl := none
    apiClient := none }

/-- C1: the claim says a token whose claim set lacks a required permission makes
`verifyJWTWithCustomHeaders` fail with the insufficient-permission reason. The code
never reads `requiredPermissions`: at the failing input — a token with a valid
signature, matching app id and an empty permission list, verified against the
non-empty required set `["MANAGE_APPS"]` — the verifier returns the claim set
successfully, and no input at all can produce the insufficient-permission
failure. -/
theorem verifyJWT_ignores_requiredPermissions :
    verifyJWTWithCustomHeaders ⟨some ⟨"app1", []⟩, true⟩ "app1" ["MANAGE_APPS"] =
      Except.ok ⟨"app1", []⟩ ∧
    ∀ (t : Token) (a : String) (ps : List String),
      isInsufficientPermissionFailure (verifyJWTWithCustomHeaders t a ps) = false := by
  constructor
  · rfl
  · intro t a ps
    rcases t with ⟨d, s⟩
    cases d with
    | none => rfl
    | some c =>
      cases s with
      | false => rfl
      | true =>
        by_cases h : c.app = a <;>
          simp [verifyJWTWithCustomHeaders, isInsufficientPermissionFailure, h]

/-- C2 counterexample: a token that decodes to an app claim differing from the
expected app id but whose signature is invalid fails with the bad-signature
reason, not the app-mismatch reason, because the source verifies the signature
before comparing the app claim. -/
theorem verifyJWT_badSignature_preempts_appMismatch :
    verifyJWTWithCustomHeaders ⟨some ⟨"other", []⟩, false⟩ "expected" [] =
      Except.error VerifyError.badSignature ∧
    VerifyError.badSignature ≠ VerifyError.appMismatch :=
  ⟨rfl, by decide⟩

/-- C2 amended: for every token that decodes successfully and whose signature is
valid against the tenant's key set, an app claim differing from the expected app id
makes `verifyJWTWithCustomHeaders` fail with the app-mismatch reason. -/
theorem verifyJWT_appMismatch_after_valid_signature (t : Token) (c : TokenClaims)
    (a : String) (ps : List String) (hdec : t.decodeJwt = some c)
    (hsig : t.signatureValid = true) (hneq : c.app ≠ a) :
    verifyJWTWithCustomHeaders t a ps = Except.error VerifyError.appMismatch := by
  unfold verifyJWTWithCustomHeaders
  rw [hdec]
  simp [hsig, hneq]

/-- C2 amended, witness: the amended statement at a concrete decodable token with a
valid signature and a mismatched app claim. -/
theorem verifyJWT_appMismatch_after_valid_signature_witness :
    verifyJWTWithCustomHeaders ⟨some ⟨"other", []⟩, true⟩ "expected" [] =
      Except.error VerifyError.appMismatch :=
  verifyJWT_appMismatch_after_valid_signature ⟨some ⟨"other", []⟩, true⟩ ⟨"other", []⟩
    "expected" [] rfl rfl (by decide)

/-- C9 counterexample: at a concrete non-success response, the JWKS fetch wrapper
fails with the message `"Failed to fetch JWKS: Not Found"`, and the key-set endpoint
URL being fetched does not occur in that message. -/
theorem fetchWithHeaders_error_omits_url :
    fetchWithHeaders "https://demo.saleor.io/.well-known/jwks.json"
      ⟨false, "Not Found"⟩ =
      Except.error "Failed to fetch JWKS: Not Found" ∧
    ¬ ("https://demo.saleor.io/.well-known/jwks.json".toList <:+:
        "Failed to fetch JWKS: Not Found".toList) :=
  ⟨rfl, by decide⟩

/-- C9 amended: whenever the key-set endpoint returns a non-success status, the
fetch wrapper fails with an error whose message is `"Failed to fetch JWKS: "`
followed by the response's status text; the endpoint URL is logged but not part of
the failure message. -/
theorem fetchWithHeaders_nonOk_fails (input : String) (r : FetchResponse)
    (h : r.ok = false) :
    fetchWithHeaders input r =
      Except.error ("Failed to fetch JWKS: " ++ r.statusText) := by
  unfold fetchWithHeaders
  simp [h]

/-- C9 amended, witness: the amended statement at a concrete URL and a concrete
non-success response. -/
theorem fetchWithHeaders_nonOk_fails_witness :
    fetchWithHeaders "https://demo.saleor.io/.well-known/jwks.json"
      ⟨false, "Forbidden"⟩ =
      Except.error ("Failed to fetch JWKS: " ++ "Forbidden") :=
  fetchWithHeaders_nonOk_fails "https://demo.saleor.io/.well-known/jwks.json"
    ⟨false, "Forbidden"⟩ rfl

/-- C10: with `ALLOWED_DOMAIN_PATTERN` unset the validator allows every URL, and
with it set to `p` the validator returns exactly what the regular-expression test of
`p` against the URL returns (using that a JS regular expression built from the empty
string matches every input, which covers the empty-pattern fall-through). -/
theorem allowedSaleorUrls_env_gating (p url : String)
    (regexTest : String → String → Bool) (hempty : regexTest "" url = true) :
    allowedSaleorUrls none regexTest url = true ∧
    allowedSaleorUrls (some p) regexTest url = regexTest p url := by
  refine ⟨rfl, ?_⟩
  unfold allowedSaleorUrls
  by_cases hp : p.isEmpty
  · have hp0 : p = "" := (String.isEmpty_iff p).mp hp
    subst hp0
    simp [hempty]
  · simp [hp]

/-- C10 witness: the gating statement at a concrete pattern, URL and regular
expression test. -/
theorem allowedSaleorUrls_env_gating_witness :
    allowedSaleorUrls none (fun pat u => pat.isEmpty || pat == u)
      "https://demo.saleor.io/graphql/" = true ∧
    allowedSaleorUrls (some "saleor") (fun pat u => pat.isEmpty || pat == u)
      "https://demo.saleor.io/graphql/" =
      (fun pat u => pat.isEmpty || pat == u) "saleor"
        "https://demo.saleor.io/graphql/" :=
  allowedSaleorUrls_env_gating "saleor" "https://demo.saleor.io/graphql/"
    (fun pat u => pat.isEmpty || pat == u) rfl

/-- C5: the differ never places a remote webhook whose name is outside the
owned-name set into `toDelete`, even when that webhook is absent from the desired
manifest. -/
theorem webhookDiff_toDelete_owned (ownedNames : List String)
    (desired : List WebhookManifestEntry) (actual : List RemoteWebhook)
    (w : RemoteWebhook)
    (hw : w ∈ (webhookDiff ownedNames desired actual).toDelete) :
    w.name ∈ ownedNames := by
  unfold webhookDiff at hw
  rw [List.mem_filter] at hw
  have h2 := hw.2
  rw [Bool.and_eq_true] at h2
  exact List.elem_iff.mp h2.2

/-- C5 witness: a concrete owned webhook absent from the desired manifest lands in
`toDelete`, and its name is in the owned set. -/
theorem webhookDiff_toDelete_owned_witness :
    (⟨⟨"smtp-order-created", "https://app/wh", ["ORDER_CREATED"], true, false⟩,
        "42"⟩ : RemoteWebhook).name ∈ ["smtp-order-created"] :=
  webhookDiff_toDelete_owned ["smtp-order-created"] [] [⟨⟨"smtp-order-created",
    "https://app/wh", ["ORDER_CREATED"], true, false⟩, "42"⟩] _ (by decide)

/-- C4: webhook reconciliation is gated exactly by the handler metadata's
`updateWebhooks` flag: without it the middleware makes zero `syncWebhookStatus`
calls and returns the business result; with it `syncWebhookStatus` is invoked
exactly once, after the business operation's result is available. -/
theorem protectedWithConfigurationServices_gating {α : Type} (meta : Option Meta)
    (businessResult : α) (syncOutcome : Except String Unit) :
    (protectedWithConfigurationServices meta businessResult syncOutcome).2 =
      (if updateWebhooksFlag meta then 1 else 0) ∧
    (updateWebhooksFlag meta = false →
      protectedWithConfigurationServices meta businessResult syncOutcome =
        (Except.ok businessResult, 0)) := by
  unfold protectedWithConfigurationServices
  by_cases h : updateWebhooksFlag meta
  · cases syncOutcome <;> simp [h]
  · simp [h]

/-- C4 witness: the gating statement at a concrete flagged metadata, business result
and reconciliation outcome. -/
theorem protectedWithConfigurationServices_gating_witness :
    (protectedWithConfigurationServices (some ⟨none, true⟩) (42 : Nat)
        (Except.ok ())).2 =
      (if updateWebhooksFlag (some ⟨none, true⟩) then 1 else 0) ∧
    (updateWebhooksFlag (some ⟨none, true⟩) = false →
      protectedWithConfigurationServices (some ⟨none, true⟩) (42 : Nat)
          (Except.ok ()) =
        (Except.ok 42, 0)) :=
  protectedWithConfigurationServices_gating (some ⟨none, true⟩) 42 (Except.ok ())

/-- C3 counterexample: with the configuration-mutating flag set, a successful
business result `42` and a failing reconciliation, the middleware's outcome is the
reconciliation error, not the successful business result: `syncWebhookStatus` is
awaited with no surrounding `try/catch`, so its rejection propagates. -/
theorem syncFailure_overrides_business_result :
    protectedWithConfigurationServices (some ⟨none, true⟩) (42 : Nat)
      (Except.error "sync failed") = (Except.error "sync failed", 1) ∧
    (Except.error "sync failed" : Except String Nat) ≠ Except.ok 42 :=
  ⟨rfl, fun h => Except.noConfusion h⟩

/-- C3 amended: when the operation is flagged configuration-mutating and
`syncWebhookStatus` fails, the middleware propagates the reconciliation error in
place of the successful business result; the business result is returned only when
reconciliation succeeds (or is skipped). -/
theorem syncFailure_propagates {α : Type} (meta : Option Meta) (businessResult : α)
    (e : String) (hflag : updateWebhooksFlag meta = true) :
    (protectedWithConfigurationServices meta businessResult (Except.error e)).1 =
      Except.error e ∧
    (protectedWithConfigurationServices meta businessResult (Except.ok ())).1 =
      Except.ok businessResult := by
  unfold protectedWithConfigurationServices
  simp [hflag]

/-- C3 amended, witness: the amended statement at a concrete flagged metadata,
business result and reconciliation error. -/
theorem syncFailure_propagates_witness :
    (protectedWithConfigurationServices (some ⟨none, true⟩) (42 : Nat)
        (Except.error "sync failed")).1 = Except.error "sync failed" ∧
    (protectedWithConfigurationServices (some ⟨none, true⟩) (42 : Nat)
        (Except.ok ())).1 = Except.ok 42 :=
  syncFailure_propagates (some ⟨none, true⟩) 42 "sync failed" rfl

/-- C6: for every browser-originated request (ssr unset) that carries a token, app
id and Saleor API URL, a token verification failure — whatever its internal reason —
terminates `validateClientToken` with one and the same external failure, the fixed
`ProtectedHandlerError` whose message and code mention no internal reason; the same
single failure also covers a missing tenant record inside the verification block. -/
theorem validateClientToken_single_external_failure (store : AplStore)
    (bp : List String) (meta : Option Meta) (ctx : Ctx) (tok : Token)
    (appId sau : String) (r : VerifyError)
    (htok : ctx.token = some tok) (happ : ctx.appId = some appId)
    (hsau : ctx.saleorApiUrl = some sau) (hssr : ctx.ssr = false)
    (hver : verifyJWTWithCustomHeaders tok appId (clientPermissions bp meta) =
      Except.error r) :
    validateClientToken store bp meta ctx =
      Except.error (StageError.protectedHandlerError "JWT verification failed: "
        "JWT_VERIFICATION_FAILED") := by
  cases hst : store appId with
  | none => simp [validateClientToken, htok, happ, hsau, hssr, hst]
  | some d => simp [validateClientToken, htok, happ, hsau, hssr, hst, hver]

/-- C6 witness: the collapse statement at a concrete malformed token (internal
reason malformed) against the demo store. -/
theorem validateClientToken_single_external_failure_witness :
    validateClientToken demoStore [] none
      { token := some ⟨none, true⟩, appId := some "app1",
        saleorApiUrl := some "https://demo.saleor.io/graphql/", ssr := false,
        appToken := none, dashboardUrl := none, apiClient := none } =
      Except.error (StageError.protectedHandlerError "JWT verification failed: "
        "JWT_VERIFICATION_FAILED") :=
  validateClientToken_single_external_failure demoStore [] none
    { token := some ⟨none, true⟩, appId := some "app1",
      saleorApiUrl := some "https://demo.saleor.io/graphql/", ssr := false,
      appToken := none, dashboardUrl := none, apiClient := none }
    ⟨none, true⟩ "app1" "https://demo.saleor.io/graphql/" VerifyError.malformed
    rfl rfl rfl rfl rfl

/-- C7 counterexample: a server-originated request (ssr flag set) with no bearer
token is terminated by `validateClientToken` with a `TRPCError` instead of extending
the context, so the stage is not skipped entirely for every server-originated
request. -/
theorem validateClientToken_ssr_missing_token_terminates :
    validateClientToken demoStore [] none
      { token := none, appId := some "app1",
        saleorApiUrl := some "https://demo.saleor.io/graphql/", ssr := true,
        appToken := none, dashboardUrl := none, apiClient := none } =
      Except.error (StageError.trpcError "INTERNAL_SERVER_ERROR"
        "Missing token in request. This middleware can be used only in frontend") :=
  rfl

/-- C7 amended: for every request that carries a token, app id and Saleor API URL, a
server-originated request (ssr set) skips verification entirely — the stage returns
the context unchanged whatever the token contains — while a browser-originated
request is decided exactly by the tenant lookup and `verifyJWTWithCustomHeaders`: a
missing record or a failed verification yields the fixed external error, and a
successful verification passes the context through. -/
theorem validateClientToken_ssr_skips_browser_verifies (store : AplStore)
    (bp : List String) (meta : Option Meta) (ctx : Ctx) (tok : Token)
    (appId sau : String) (htok : ctx.token = some tok)
    (happ : ctx.appId = some appId) (hsau : ctx.saleorApiUrl = some sau) :
    (ctx.ssr = true → validateClientToken store bp meta ctx = Except.ok ctx) ∧
    (ctx.ssr = false → validateClientToken store bp meta ctx =
      (match store appId with
       | none => Except.error (StageError.protectedHandlerError
           "JWT verification failed: " "JWT_VERIFICATION_FAILED")
       | some _ =>
         match verifyJWTWithCustomHeaders tok appId (clientPermissions bp meta) with
         | .error _ => Except.error (StageError.protectedHandlerError
             "JWT verification failed: " "JWT_VERIFICATION_FAILED")
         | .ok _ => Except.ok ctx)) := by
  constructor <;> intro hssr
  · simp [validateClientToken, htok, happ, hsau, hssr]
  · cases hst : store appId with
    | none => simp [validateClientToken, htok, happ, hsau, hssr, hst]
    | some d =>
      cases hver : verifyJWTWithCustomHeaders tok appId
          (clientPermissions bp meta) with
      | error r => simp [validateClientToken, htok, happ, hsau, hssr, hst, hver]
      | ok c => simp [validateClientToken, htok, happ, hsau, hssr, hst, hver]

/-- C7 amended, witness: a concrete server-originated request with token, app id and
Saleor API URL present passes through unverified and unchanged. -/
theorem validateClientToken_ssr_skips_browser_verifies_witness :
    validateClientToken demoStore [] none
      { token := some ⟨some ⟨"app1", []⟩, true⟩, appId := some "app1",
        saleorApiUrl := some "https://demo.saleor.io/graphql/", ssr := true,
        appToken := none, dashboardUrl := none, apiClient := none } =
      Except.ok
      { token := some ⟨some ⟨"app1", []⟩, true⟩, appId := some "app1",
        saleorApiUrl := some "https://demo.saleor.io/graphql/", ssr := true,
        appToken := none, dashboardUrl := none, apiClient := none } :=
  (validateClientToken_ssr_skips_browser_verifies demoStore [] none
    { token := some ⟨some ⟨"app1", []⟩, true⟩, appId := some "app1",
      saleorApiUrl := some "https://demo.saleor.io/graphql/", ssr := true,
      appToken := none, dashboardUrl := none, apiClient := none }
    ⟨some ⟨"app1", []⟩, true⟩ "app1" "https://demo.saleor.io/graphql/"
    rfl rfl rfl).1 rfl

/-- Helper: the demo store honours the APL contract — a record returned for an app
id carries that app id. -/
theorem demoStore_consistent : ∀ id d, demoStore id = some d → d.appId = id := by
  intro id d h
  unfold demoStore at h
  split at h
  next heq =>
    injection h with h
    subst h
    rw [heq]
    rfl
  next => exact Option.noConfusion h

/-- Helper: whenever `validateClientToken` extends the context, it extends it with
the context unchanged (both success branches return `ctx` as-is). -/
theorem validateClientToken_ok_id (store : AplStore) (bp : List String)
    (meta : Option Meta) (c c' : Ctx)
    (h : validateClientToken store bp meta c = Except.ok c') : c' = c := by
  unfold validateClientToken at h
  repeat' split at h
  all_goals first
    | exact Except.noConfusion h
    | (injection h with h; exact h.symm)

/-- Helper: the third stage succeeds outright whenever the store has a record for
the context's app id, returning the context extended with the constructed client. -/
theorem attachApiClient_ok_of_lookup (store : AplStore) (c : Ctx) (d : AuthData)
    (h : store (c.appId.getD "") = some d) :
    attachApiClient store c =
      Except.ok { c with
                  apiClient := some ⟨c.saleorApiUrl.getD "", c.appToken.getD "",
                    d.dashboardUrl⟩ } := by
  unfold attachApiClient
  rw [h]

/-- C8: under the APL contract that a record returned for an app id carries that app
id, every context on which stages 1 and 2 succeeded makes the third stage of
`protectedClientProcedure` succeed: `attachApiClient` never terminates the request,
and it attaches the constructed client (construction is pure, so any failure could
surface only on first use of the client). -/
theorem attachApiClient_succeeds (store : AplStore)
    (hstore : ∀ id d, store id = some d → d.appId = id) (ctx c1 c2 : Ctx)
    (bp : List String) (meta : Option Meta)
    (h1 : attachAppToken store ctx = Except.ok c1)
    (h2 : validateClientToken store bp meta c1 = Except.ok c2) :
    ∃ c3, attachApiClient store c2 = Except.ok c3 ∧ c3.apiClient.isSome = true := by
  unfold attachAppToken at h1
  cases hsau : ctx.saleorApiUrl with
  | none => rw [hsau] at h1; exact Except.noConfusion h1
  | some s =>
    rw [hsau] at h1
    cases hget : store (ctx.appId.getD "") with
    | none => rw [hget] at h1; exact Except.noConfusion h1
    | some authData =>
      rw [hget] at h1
      injection h1 with h1
      have hc2 : c2 = c1 := validateClientToken_ok_id store bp meta c1 c2 h2
      subst hc2
      subst h1
      have hid : authData.appId = ctx.appId.getD "" := hstore _ _ hget
      have hlook : store ((({ ctx with
          appToken := some authData.token
          saleorApiUrl := some authData.saleorApiUrl
          appId := some authData.appId } : Ctx).appId).getD "") = some authData := by
        show store authData.appId = some authData
        rw [hid]
        exact hget
      exact ⟨_, attachApiClient_ok_of_lookup store _ authData hlook, rfl⟩

/-- C8 witness: the stage-3 success statement at the demo store and a concrete
context that passes stages 1 and 2. -/
theorem attachApiClient_succeeds_witness :
    ∃ c3, attachApiClient demoStore
      { token := some ⟨some ⟨"app1", []⟩, true⟩, appId := some "app1",
        saleorApiUrl := some "https://demo.saleor.io/graphql/", ssr := false,
        appToken := some "stored-app-token", dashboardUrl := none,
        apiClient := none } = Except.ok c3 ∧ c3.apiClient.isSome = true :=
  attachApiClient_succeeds demoStore demoStore_consistent demoCtx
    { token := some ⟨some ⟨"app1", []⟩, true⟩, appId := some "app1",
      saleorApiUrl := some "https://demo.saleor.io/graphql/", ssr := false,
      appToken := some "stored-app-token", dashboardUrl := none,
      apiClient := none }
    { token := some ⟨some ⟨"app1", []⟩, true⟩, appId := some "app1",
      saleorApiUrl := some "https://demo.saleor.io/graphql/", ssr := false,
      appToken := some "stored-app-token", dashboardUrl := none,
      apiClient := none }
    [] none (by rfl) (by rfl)

end SmtpApp
